import Mathlib

/-!
# Verification of the nanoconfig content-addressed data layer

A shallow embedding of `nanoconfig/data` (`source.py`, `transform.py`,
`fs.py`): the pipeline hash-chaining, the filesystem-backed repository
(`FsDataRepository`), its alias registry, writers and split writers.
Hashing is modelled by an executable SHA-256 over UTF-8 bytes, matching
Python's `hashlib.sha256(s.encode("utf-8")).hexdigest()`, so that concrete
digests can be computed inside proofs.
-/

set_option maxRecDepth 1000000

namespace Nanoconfig

/-! ## SHA-256 (bytes are `Nat` < 256, words are `Nat` < 2^32) -/

/-- Truncate to a 32-bit word. -/
def w32 (x : Nat) : Nat := x % 4294967296

/-- Right-rotate a 32-bit word by `n` bits. -/
def rotr (n x : Nat) : Nat := w32 ((x >>> n) ||| (x <<< (32 - n)))

/-- SHA-256 Σ0. -/
def bSig0 (x : Nat) : Nat := (rotr 2 x) ^^^ (rotr 13 x) ^^^ (rotr 22 x)

/-- SHA-256 Σ1. -/
def bSig1 (x : Nat) : Nat := (rotr 6 x) ^^^ (rotr 11 x) ^^^ (rotr 25 x)

/-- SHA-256 σ0. -/
def sSig0 (x : Nat) : Nat := (rotr 7 x) ^^^ (rotr 18 x) ^^^ (x >>> 3)

/-- SHA-256 σ1. -/
def sSig1 (x : Nat) : Nat := (rotr 17 x) ^^^ (rotr 19 x) ^^^ (x >>> 10)

/-- SHA-256 Ch(x,y,z). -/
def chf (x y z : Nat) : Nat := (x &&& y) ^^^ ((x ^^^ 4294967295) &&& z)

/-- SHA-256 Maj(x,y,z). -/
def majf (x y z : Nat) : Nat := (x &&& y) ^^^ (x &&& z) ^^^ (y &&& z)

/-- The 64 SHA-256 round constants. -/
def sha256K : List Nat :=
  [1116352408, 1899447441, 3049323471, 3921009573, 961987163, 1508970993,
   2453635748, 2870763221, 3624381080, 310598401, 607225278, 1426881987,
   1925078388, 2162078206, 2614888103, 3248222580, 3835390401, 4022224774,
   264347078, 604807628, 770255983, 1249150122, 1555081692, 1996064986,
   2554220882, 2821834349, 2952996808, 3210313671, 3336571891, 3584528711,
   113926993, 338241895, 666307205, 773529912, 1294757372, 1396182291,
   1695183700, 1986661051, 2177026350, 2456956037, 2730485921, 2820302411,
   3259730800, 3345764771, 3516065817, 3600352804, 4094571909, 275423344,
   430227734, 506948616, 659060556, 883997877, 958139571, 1322822218,
   1537002063, 1747873779, 1955562222, 2024104815, 2227730452, 2361852424,
   2428436474, 2756734187, 3204031479, 3329325298]

/-- The initial SHA-256 state. -/
def sha256H0 : List Nat :=
  [1779033703, 3144134277, 1013904242, 2773480762,
   1359893119, 2600822924, 528734635, 1541459225]

/-- Big-endian bytes of `v`, `n` bytes wide. -/
def beBytes (n v : Nat) : List Nat :=
  (List.range n).map (fun i => (v >>> (8 * (n - 1 - i))) % 256)

/-- SHA-256 padding: append `0x80`, zero bytes up to 56 mod 64, then the
bit length as 8 big-endian bytes. -/
def padBytes (msg : List Nat) : List Nat :=
  let padZeros := (64 + 55 - (msg.length % 64)) % 64
  msg ++ [0x80] ++ List.replicate padZeros 0 ++ beBytes 8 (8 * msg.length)

/-- The 16 initial 32-bit words of a 64-byte block. -/
def blockWords (b : List Nat) : List Nat :=
  (List.range 16).map (fun i =>
    ((b.get! (4*i)) <<< 24) ||| ((b.get! (4*i+1)) <<< 16) |||
    ((b.get! (4*i+2)) <<< 8) ||| (b.get! (4*i+3)))

/-- Extend a message schedule by `n` further words. -/
def extendWords (ws : List Nat) : Nat → List Nat
  | 0 => ws
  | n + 1 =>
      let i := ws.length
      let next := w32 (sSig1 (ws.get! (i-2)) + ws.get! (i-7) +
                       sSig0 (ws.get! (i-15)) + ws.get! (i-16))
      extendWords (ws ++ [next]) n

/-- One round of the SHA-256 compression function on state `[a,b,c,d,e,f,g,h]`. -/
def compressStep (st : List Nat) (kw : Nat × Nat) : List Nat :=
  match st with
  | [a, b, c, d, e, f, g, h] =>
      let t1 := w32 (h + bSig1 e + chf e f g + kw.1 + kw.2)
      let t2 := w32 (bSig0 a + majf a b c)
      [w32 (t1 + t2), a, b, c, w32 (d + t1), e, f, g]
  | other => other

/-- Compress one 64-byte block into the hash state. -/
def compressBlock (hs : List Nat) (block : List Nat) : List Nat :=
  let ws := extendWords (blockWords block) 48
  let st := (sha256K.zip ws).foldl compressStep hs
  (hs.zip st).map (fun p => w32 (p.1 + p.2))

/-- Compress `n` consecutive 64-byte blocks of `msg` into the hash state. -/
def processBlocks (hs : List Nat) (msg : List Nat) : Nat → List Nat
  | 0 => hs
  | n + 1 => processBlocks (compressBlock hs (msg.take 64)) (msg.drop 64) n

/-- Fold the compression function over a padded message (whose length is a
multiple of 64 by construction). -/
def processPadded (hs : List Nat) (msg : List Nat) : List Nat :=
  processBlocks hs msg (msg.length / 64)

/-- A lowercase hex digit. -/
def hexDigitChar (n : Nat) : Char :=
  if n < 10 then Char.ofNat (48 + n) else Char.ofNat (87 + n)

/-- A 32-bit word as 8 lowercase hex characters. -/
def wordHex (v : Nat) : List Char :=
  (List.range 8).map (fun i => hexDigitChar ((v >>> (4 * (7 - i))) % 16))

/-- UTF-8 encoding of one character. -/
def charUtf8 (c : Char) : List Nat :=
  let n := c.toNat
  if n < 0x80 then [n]
  else if n < 0x800 then
    [0xc0 ||| (n >>> 6), 0x80 ||| (n &&& 0x3f)]
  else if n < 0x10000 then
    [0xe0 ||| (n >>> 12), 0x80 ||| ((n >>> 6) &&& 0x3f), 0x80 ||| (n &&& 0x3f)]
  else
    [0xf0 ||| (n >>> 18), 0x80 ||| ((n >>> 12) &&& 0x3f),
     0x80 ||| ((n >>> 6) &&& 0x3f), 0x80 ||| (n &&& 0x3f)]

/-- UTF-8 bytes of a string. -/
def utf8Bytes (s : String) : List Nat := (s.data.map charUtf8).flatten

/-- Python `hashlib.sha256(s.encode("utf-8")).hexdigest()`: the lowercase hex
SHA-256 digest of a string's UTF-8 bytes. -/
def sha256hex (s : String) : String :=
  String.mk (((processPadded sha256H0 (padBytes (utf8Bytes s))).map wordHex).flatten)

/-! ## Pipelines and hash chaining (`source.py` and `transform.py`)

A `DataTransform` enters the hash computations only through its `sha256`
property, so it is embedded as that string.  The two `DataPipeline`
classes are `DataSource`s themselves (a pipeline may be the source of
another pipeline), hence the inductive source types. -/

/-- A `DataTransform`, as seen by the hashing code: its `sha256` property. -/
structure DataTransform where
  sha256 : String
deriving DecidableEq

/-- A `DataSource` for `source.py`'s `DataPipeline` class: either a leaf
source (abstracted to its `sha256` property) or a `DataPipeline(source,
*transformations)`. -/
inductive SrcDataSource where
  | base (sha256 : String)
  | pipeline (source : SrcDataSource) (transformations : List DataTransform)
deriving DecidableEq

/-- In `source.py`: `DataPipeline.sha256`: hash of
`source.sha256 + "-" + "-".join(t.sha256 for t in transformations)`,
a single flat digest of the joined component hashes. -/
def SrcDataSource.sha256 : SrcDataSource → String
  | .base h => h
  | .pipeline source transformations =>
      sha256hex (source.sha256 ++ "-" ++
        String.intercalate "-" (transformations.map DataTransform.sha256))

/-- In `source.py`: `DataPipeline.compose(source, *transformations)`. -/
def SrcDataSource.compose (source : SrcDataSource)
    (transformations : List DataTransform) : SrcDataSource :=
  .pipeline source transformations

/-- In `transform.py`: `DataPipeline.transformed_sha256(data, *transforms)`:
the argument enters only through its `sha256`, passed here as `dataSha`;
the result is repeatedly re-hashed with each transform's hash. -/
def transformed_sha256 (dataSha : String) (transforms : List DataTransform) : String :=
  transforms.foldl (fun result t => sha256hex (result ++ "-" ++ t.sha256)) dataSha

/-- A `DataSource` for `transform.py`'s `DataPipeline` class. -/
inductive TfDataSource where
  | base (sha256 : String)
  | pipeline (source : TfDataSource) (transformations : List DataTransform)
deriving DecidableEq

/-- In `transform.py`: `DataPipeline.sha256`:
`transformed_sha256(self.source, *self.transformations)`. -/
def TfDataSource.sha256 : TfDataSource → String
  | .base h => h
  | .pipeline source transformations =>
      transformed_sha256 source.sha256 transformations

/-- In `transform.py`: `DataPipeline.compose(source, *transformations)`. -/
def TfDataSource.compose (source : TfDataSource)
    (transformations : List DataTransform) : TfDataSource :=
  .pipeline source transformations

/-- The spec's iterated hash-chain, stated from its words for comparison
with the code's hashes: `h0 = hash(source)`;
`hi = hash(h(i-1) + "-" + transform_i.hash)`. -/
def specHashChain (h0 : String) : List DataTransform → String
  | [] => h0
  | t :: ts => specHashChain (sha256hex (h0 ++ "-" ++ t.sha256)) ts

/-! ## The filesystem repository (`fs.py`)

State is explicit: the repository's directory tree is a finite map from
entry hash to entry content, the in-memory alias dict and the persisted
`registry.json` are association lists.  Python exceptions become error
values: a function that may raise returns `Except PyError _`, or threads
the state through as `state × Option PyError` when the claim is about
what a failed call leaves behind. -/

/-- The Python exception types raised by the `fs.py` code paths. -/
inductive PyError where
  | fileNotFoundError
  | fileExistsError
  | valueError
  | assertionError
deriving DecidableEq

/-- A pyarrow schema, abstracted to an ordered list of (field name, type)
pairs; equality is the `==` the writer's assert performs. -/
abbrev Schema := List (String × String)

/-- A pyarrow `RecordBatch`: its schema, row count, and on-disk size in
bytes (what `_current_file.size()` grows by). -/
structure RecordBatch where
  schema : Schema
  rows : Nat
  size : Nat
deriving DecidableEq

/-- In `fs.py`: `MAX_FILE_SIZE = 128 * 1024 * 1024 * 1024` (the comment
says 128 Mb; the value is 128 GiB). -/
def MAX_FILE_SIZE : Nat := 128 * 1024 * 1024 * 1024

/-- The mutable state of a `LocalSplitWriter`: the pinned schema, the shard
counter, whether a current shard file/writer is open and its size, the
batches durably handed to the parquet writers, and whether `close()` ran. -/
structure LocalSplitWriter where
  schema : Option Schema
  numParts : Nat
  currentOpen : Bool
  currentSize : Nat
  written : List RecordBatch
  closed : Bool
deriving DecidableEq

/-- A fresh `LocalSplitWriter` (its `__init__`). -/
def LocalSplitWriter.init : LocalSplitWriter :=
  { schema := none, numParts := 0, currentOpen := false, currentSize := 0,
    written := [], closed := false }

/-- First half of `LocalSplitWriter._check_writer`: close the current shard
when its file exceeds `MAX_FILE_SIZE`. -/
def LocalSplitWriter.rotateIfFull (w : LocalSplitWriter) : LocalSplitWriter :=
  if w.currentOpen && decide (w.currentSize > MAX_FILE_SIZE) then
    { w with currentOpen := false, currentSize := 0 }
  else w

/-- Second half of `LocalSplitWriter._check_writer`: open the next part file
when no shard is open. -/
def LocalSplitWriter.openIfClosed (w : LocalSplitWriter) : LocalSplitWriter :=
  if !w.currentOpen then
    { w with numParts := w.numParts + 1, currentOpen := true }
  else w

/-- In `fs.py`: `LocalSplitWriter._check_writer`: rotate the shard when the
current file exceeds `MAX_FILE_SIZE`, and open a new part file when none
is open. -/
def LocalSplitWriter.checkWriter (w : LocalSplitWriter) : LocalSplitWriter :=
  w.rotateIfFull.openIfClosed

/-- In `fs.py`: `LocalSplitWriter.write_batch`: `if not self._schema:` pins
the batch's schema, `else` the `assert self._schema == batch.schema` trips
(an `AssertionError`) on a differing schema; then the batch goes to the
current shard.  The truthiness test is len-based for `pa.Schema` (it
defines `__len__`, no `__bool__`): `None` is falsy, and so is a pinned
*zero-field* schema — in that case a later batch silently re-pins the
schema instead of being checked against it. -/
def LocalSplitWriter.write_batch (w : LocalSplitWriter) (batch : RecordBatch) :
    Except PyError LocalSplitWriter :=
  match w.schema with
  | none =>
      let w := { w with schema := some batch.schema }
      let w := w.checkWriter
      .ok { w with written := w.written ++ [batch],
                   currentSize := w.currentSize + batch.size }
  | some s =>
      if s.isEmpty then
        let w := { w with schema := some batch.schema }
        let w := w.checkWriter
        .ok { w with written := w.written ++ [batch],
                     currentSize := w.currentSize + batch.size }
      else if batch.schema = s then
        let w := w.checkWriter
        .ok { w with written := w.written ++ [batch],
                     currentSize := w.currentSize + batch.size }
      else .error .assertionError

/-- In `fs.py`: `LocalSplitWriter.close`. -/
def LocalSplitWriter.close (w : LocalSplitWriter) : LocalSplitWriter :=
  { w with closed := true }

/-- Stream a list of batches through `write_batch`; on the first failure
the exception propagates, leaving the writer as the last successful state. -/
def writeBatches (w : LocalSplitWriter) :
    List RecordBatch → LocalSplitWriter × Option PyError
  | [] => (w, none)
  | batch :: rest =>
      match w.write_batch batch with
      | .ok w' => writeBatches w' rest
      | .error e => (w, some e)

/-- What one `with writer.split(name)` block leaves behind: the split
writer's final state, and whether the context exited normally (only then
does `FsDataWriter.split` call `writer.close()`, finalizing the parquet
footers — a split is *completed* exactly when that happened). -/
structure SplitRecord where
  writer : LocalSplitWriter
  completed : Bool
deriving DecidableEq

/-- The content of one content-store entry directory: its split
subdirectories by name. -/
abbrev EntryContent := List (String × SplitRecord)

/-- In `fs.py`: `FsDataWriter.split(name)` run over a list of batches:
raise `FileExistsError` if the split directory exists, else `mkdir` it and
stream the batches; on normal exit `writer.close()` runs (completed), on
an exception it does not (the split directory and partial shard files
remain, unfinalized). -/
def FsDataWriter.runSplit (entry : EntryContent) (name : String)
    (batches : List RecordBatch) : EntryContent × Option PyError :=
  if (entry.lookup name).isSome then (entry, some .fileExistsError)
  else
    match writeBatches LocalSplitWriter.init batches with
    | (w, none) => ((name, ⟨w.close, true⟩) :: entry, none)
    | (w, some e) => ((name, ⟨w, false⟩) :: entry, some e)

/-- The state of an `FsDataRepository`: the per-hash entry directories
under the repository root, the in-memory `_aliases` dict, and the
persisted `registry.json` contents. -/
structure FsDataRepository where
  entries : List (String × EntryContent)
  aliases : List (String × String)
  registryFile : List (String × String)
deriving DecidableEq

/-- A repository over an empty directory (no entries, no registry). -/
def FsDataRepository.empty : FsDataRepository :=
  { entries := [], aliases := [], registryFile := [] }

/-- Python `self._fs.exists(path)` at the repository root: the per-hash
entry directories are the paths the claims probe. -/
def FsDataRepository.existsPath (st : FsDataRepository) (path : String) : Bool :=
  (st.entries.lookup path).isSome

/-- An `FsData` handle: the sha it was opened under and the entry content
its directory scan sees (empty when the directory is absent). -/
structure FsData where
  sha : String
  content : EntryContent
deriving DecidableEq

/-- In `fs.py`: `FsData.sha256` returns the stored sha. -/
def FsData.sha256 (d : FsData) : String := d.sha

/-- In `fs.py`: `FsDataRepository.lookup(alias_or_sha)`: resolve the alias
through `_aliases` (falling back to the string itself), then check
`self._fs.exists(alias_or_sha)` — the *unresolved* name — raising
`FileNotFoundError` when that path is absent, and otherwise return
`FsData(DirFileSystem(sha), sha)` over the *resolved* sha.  Note the
declared `Data | None` contract is never used: absence raises instead of
returning `None`. -/
def FsDataRepository.lookup (st : FsDataRepository) (aliasOrSha : String) :
    Except PyError FsData :=
  let sha := (st.aliases.lookup aliasOrSha).getD aliasOrSha
  if st.existsPath aliasOrSha then
    .ok { sha := sha, content := (st.entries.lookup sha).getD [] }
  else .error .fileNotFoundError

/-- In `fs.py`: `FsDataRepository.register(alias, sha)`: raise `ValueError`
if the alias is taken, raise `FileNotFoundError` if the sha's directory is
absent, and only then update the in-memory dict and rewrite
`registry.json` in full. -/
def FsDataRepository.register (st : FsDataRepository) (aliasName sha : String) :
    FsDataRepository × Option PyError :=
  if (st.aliases.lookup aliasName).isSome then (st, some .valueError)
  else if !st.existsPath sha then (st, some .fileNotFoundError)
  else
    let aliases := (aliasName, sha) :: st.aliases
    ({ st with aliases := aliases, registryFile := aliases }, none)

/-- In `fs.py`: `FsDataRepository.initialize(data_sha)` (entering the
context manager): raise `FileExistsError` if the sha's directory exists,
else `mkdir` it and hand out an `FsDataWriter` scoped to it (returned here
as the sha the writer is scoped to). -/
def FsDataRepository.initEntry (st : FsDataRepository) (dataSha : String) :
    Except PyError (FsDataRepository × String) :=
  if st.existsPath dataSha then .error .fileExistsError
  else .ok ({ st with entries := (dataSha, []) :: st.entries }, dataSha)

/-- A `DataSource` as `DataRepository.fetch` consumes it: its `sha256`
property (its `prepare` is unreachable through `fetch` over an
`FsDataRepository`, see `FsDataRepository.fetch`). -/
structure ModelDataSource where
  sha256 : String
deriving DecidableEq

/-- In `source.py`: `DataRepository.fetch(source)` specialized to an
`FsDataRepository` and a `DataSource` argument: `data =
self.lookup(source.sha256)` either raises (propagated here) or returns an
`FsData`, which is never `None`, so the `if data is not None: return data`
branch always returns and the `prepare`/`initialize` path below it is
unreachable. -/
def FsDataRepository.fetch (st : FsDataRepository) (source : ModelDataSource) :
    Except PyError FsData :=
  match st.lookup source.sha256 with
  | .error e => .error e
  | .ok data => .ok data

/-- In `transform.py`: `DropColumns(*columns)`: the constructor stores
`set(columns)`; the list here records the iteration order the process
observes for that set (unspecified, and varying across process runs for
strings under hash randomization). -/
structure DropColumns where
  columns : List String
deriving DecidableEq

/-- In `transform.py`: `DropColumns.sha256`:
`sha256(("drop-" + "-".join(self.columns)).encode("utf-8"))` — the join
runs over the set in its iteration order. -/
def DropColumns.sha256 (t : DropColumns) : String :=
  sha256hex ("drop-" ++ String.intercalate "-" t.columns)

/-- In `transform.py`: `DropColumns.transform(data, repo)` over an
`FsDataRepository`: compute `dest_sha = transformed_sha256(data, self)`,
then `final = repo.lookup(dest_sha)` — which raises `FileNotFoundError` on
a cache miss instead of returning `None`; on a hit the cached entry is
returned.  The miss branch below the lookup is doubly unreachable: even a
`None`-returning lookup would then call `repo.init(dest_sha)`, a method
that does not exist on `DataRepository` (which defines `initialize`), and
`writer.close()`, which does not exist on `FsDataWriter`. -/
def DropColumns.transformOn (t : DropColumns) (st : FsDataRepository)
    (data : FsData) : Except PyError FsData :=
  let destSha := transformed_sha256 data.sha256 [⟨t.sha256⟩]
  match st.lookup destSha with
  | .ok final => .ok final
  | .error e => .error e

/-- In `transform.py`: `SetMimeType.sha256`:
`sha256(("set-mime-" + self.mime_type).encode("utf-8"))`. -/
def SetMimeType.sha256 (mimeType : String) : String :=
  sha256hex ("set-mime-" ++ mimeType)

/-! ## Helper lemmas -/

/-- In `transform.py`: the foldl of `transformed_sha256` computes exactly the
spec's recursive hash chain. -/
theorem transformed_sha256_eq_specHashChain (h0 : String) (ts : List DataTransform) :
    transformed_sha256 h0 ts = specHashChain h0 ts := by
  induction ts generalizing h0 with
  | nil => rfl
  | cons t ts ih => simpa [transformed_sha256, specHashChain] using ih _

/-- C1: for `transform.py`'s `DataPipeline`, chaining is associative for all
sources and transforms: `compose(compose(S,t1),t2).sha256 =
compose(S,t1,t2).sha256`; for `source.py`'s `DataPipeline` the same law
fails at a concrete source and pair of transforms, because its `sha256` is
one flat digest of the joined component hashes rather than the iterated
chain (a two-transform `source.py` pipeline also breaks `fetch`'s own
`assert data.sha256 == source.sha256`). -/
theorem chain_associativity :
    (∀ (s : TfDataSource) (t1 t2 : DataTransform),
      ((s.compose [t1]).compose [t2]).sha256 = (s.compose [t1, t2]).sha256)
    ∧ (((SrcDataSource.base "a").compose [⟨"b"⟩]).compose [⟨"c"⟩]).sha256 ≠
        ((SrcDataSource.base "a").compose [⟨"b"⟩, ⟨"c"⟩]).sha256 :=
  ⟨fun _ _ _ => rfl, by decide⟩

/-- C2: for `transform.py`'s `DataPipeline`, `sha256` equals the spec's
iterated hash-chain `h0 = source.sha256`, `hi = sha256(h(i-1) + "-" +
ti.sha256)` for every source and transform list (a pure function of the
component hashes); for `source.py`'s `DataPipeline` the equality fails at
a concrete two-transform pipeline. -/
theorem pipeline_sha256_is_chain :
    (∀ (s : TfDataSource) (ts : List DataTransform),
      (TfDataSource.pipeline s ts).sha256 = specHashChain s.sha256 ts)
    ∧ (SrcDataSource.pipeline (.base "s0") [⟨"u"⟩, ⟨"v"⟩]).sha256 ≠
        specHashChain "s0" [⟨"u"⟩, ⟨"v"⟩] :=
  ⟨fun s ts => transformed_sha256_eq_specHashChain s.sha256 ts, by decide⟩

/-- C3: `fetch(source)` over an `FsDataRepository` raises the lookup's
`FileNotFoundError` whenever the source's hash is not in the store —
performing no `initialize` and never reaching `prepare` — and when it does
succeed it returns exactly the already-stored entry; so the first of two
`fetch` calls on a fresh repository fails instead of materializing. -/
theorem fetch_error_on_miss :
    (∀ (st : FsDataRepository) (source : ModelDataSource),
        st.existsPath source.sha256 = false →
        st.fetch source = .error .fileNotFoundError)
    ∧ (∀ (st : FsDataRepository) (source : ModelDataSource) (d : FsData),
        st.fetch source = .ok d → st.lookup source.sha256 = .ok d) := by
  constructor
  · intro st source hmiss
    unfold FsDataRepository.fetch FsDataRepository.lookup
    simp [hmiss]
  · intro st source d hok
    unfold FsDataRepository.fetch at hok
    split at hok
    · exact absurd hok (by simp)
    · rename_i heq
      exact heq ▸ congrArg Except.ok (Except.ok.inj hok)

/-- C3 witness: on the empty repository, fetching a source with hash `"s"`
fails with `FileNotFoundError`; on a store holding `"s"`, `fetch` returns
the stored entry, which is exactly `lookup "s"`. -/
theorem fetch_error_on_miss_witness :
    (FsDataRepository.empty.existsPath "s" = false ∧
      FsDataRepository.empty.fetch ⟨"s"⟩ = .error .fileNotFoundError)
    ∧ ((FsDataRepository.mk [("s", [])] [] []).fetch ⟨"s"⟩ = .ok ⟨"s", []⟩ ∧
        (FsDataRepository.mk [("s", [])] [] []).lookup "s" = .ok ⟨"s", []⟩) :=
  ⟨⟨by decide, fetch_error_on_miss.1 FsDataRepository.empty ⟨"s"⟩ (by decide)⟩,
   ⟨rfl, fetch_error_on_miss.2 (FsDataRepository.mk [("s", [])] [] [])
      ⟨"s"⟩ ⟨"s", []⟩ rfl⟩⟩

/-- C4: on a store holding entry `"h1"`, `register("mnist", "h1")` succeeds,
but `lookup("mnist")` then raises `FileNotFoundError` — the code checks
`exists(alias_or_sha)` on the unresolved alias instead of the resolved sha
— while `lookup("h1")` returns the dataset, so the registered alias does
not resolve to the same dataset as its hash. -/
theorem register_then_lookup_alias :
    (FsDataRepository.register ⟨[("h1", [])], [], []⟩ "mnist" "h1").2 = none
    ∧ ((FsDataRepository.register ⟨[("h1", [])], [], []⟩ "mnist" "h1").1.lookup
        "mnist" = .error .fileNotFoundError)
    ∧ ((FsDataRepository.register ⟨[("h1", [])], [], []⟩ "mnist" "h1").1.lookup
        "h1" = .ok ⟨"h1", []⟩) :=
  ⟨by decide, rfl, rfl⟩

/-- C5: `DropColumns.transform` over an `FsDataRepository` raises
`FileNotFoundError` whenever the chained destination hash is not already
in the store: the initial `repo.lookup(dest_sha)` raises on a miss instead
of returning `None`, so the body that would drop the column and write the
output is never reached (and would itself call the nonexistent
`repo.init`). -/
theorem dropColumns_transform_error_on_miss :
    ∀ (st : FsDataRepository) (t : DropColumns) (data : FsData),
      st.existsPath (transformed_sha256 data.sha256 [⟨t.sha256⟩]) = false →
      t.transformOn st data = .error .fileNotFoundError := by
  intro st t data hmiss
  unfold DropColumns.transformOn FsDataRepository.lookup
  simp [hmiss]

/-- C5 witness: on the empty repository, `DropColumns("x")` applied to a
dataset with hash `"d0"` fails with `FileNotFoundError`. -/
theorem dropColumns_transform_error_on_miss_witness :
    FsDataRepository.empty.existsPath
        (transformed_sha256 (FsData.mk "d0" []).sha256
          [⟨DropColumns.sha256 ⟨["x"]⟩⟩]) = false ∧
    DropColumns.transformOn ⟨["x"]⟩ FsDataRepository.empty ⟨"d0", []⟩ =
      .error .fileNotFoundError :=
  ⟨by decide,
   dropColumns_transform_error_on_miss FsDataRepository.empty ⟨["x"]⟩ ⟨"d0", []⟩
     (by decide)⟩

/-- C7: `initialize(h)` fails with `FileExistsError` exactly when the entry
is already present, otherwise creates the entry and returns its scoped
writer; hence of two sequential `initialize(h)` calls starting from an
absent `h`, the first succeeds and the second fails; and opening the same
split name twice on one writer fails with `FileExistsError` on the second
open. -/
theorem init_at_most_once :
    (∀ (st : FsDataRepository) (h : String),
        st.initEntry h = .error .fileExistsError ↔ st.existsPath h = true)
    ∧ (∀ (st : FsDataRepository) (h : String), st.existsPath h = false →
        ∃ st', st.initEntry h = .ok (st', h) ∧
          st'.initEntry h = .error .fileExistsError)
    ∧ (∀ (entry : EntryContent) (name : String) (bs1 bs2 : List RecordBatch),
        (FsDataWriter.runSplit (FsDataWriter.runSplit entry name bs1).1
          name bs2).2 = some .fileExistsError) := by
  refine ⟨?_, ?_, ?_⟩
  · intro st h
    unfold FsDataRepository.initEntry
    constructor
    · intro herr
      by_contra hne
      simp only [Bool.not_eq_true] at hne
      simp [hne] at herr
    · intro hex
      simp [hex]
  · intro st h hmiss
    refine ⟨{ st with entries := (h, []) :: st.entries }, ?_, ?_⟩
    · unfold FsDataRepository.initEntry
      simp [hmiss]
    · unfold FsDataRepository.initEntry FsDataRepository.existsPath
      simp [List.lookup]
  · intro entry name bs1 bs2
    unfold FsDataWriter.runSplit
    by_cases hex : (entry.lookup name).isSome
    · simp [hex]
    · simp only [hex, Bool.false_eq_true, if_false]
      cases hw : writeBatches LocalSplitWriter.init bs1 with
      | mk w err =>
        cases err <;> simp [List.lookup]

/-- C7 witness: on the empty repository, the first `initialize("h")`
succeeds and re-initializing afterwards fails with `FileExistsError`. -/
theorem init_at_most_once_witness :
    FsDataRepository.empty.existsPath "h" = false ∧
    (∃ st', FsDataRepository.empty.initEntry "h" = .ok (st', "h") ∧
      st'.initEntry "h" = .error .fileExistsError) :=
  ⟨by decide, init_at_most_once.2.1 FsDataRepository.empty "h" (by decide)⟩

/-- C8: `DropColumns.sha256` is not a function of the constructed column
set alone: the digest is taken over the set's iteration order, and the two
orders of the same two-element set `{"a", "b"}` yield different digests —
so two instances over the same column names (in particular across process
runs, where string-hash randomization reorders set iteration) can disagree,
contradicting repeat-stability for fixed parameters. -/
theorem dropColumns_sha256_order_dependent :
    (∀ x : String, x ∈ (["a", "b"] : List String) ↔
        x ∈ (["b", "a"] : List String))
    ∧ DropColumns.sha256 ⟨["a", "b"]⟩ ≠ DropColumns.sha256 ⟨["b", "a"]⟩ := by
  constructor
  · intro x
    simp only [List.mem_cons, List.not_mem_nil, or_false]
    tauto
  · decide

/-- C9: an empty transform chain is the identity: `transformed_sha256(d)`
with no transforms returns `d.sha256` unchanged, a `transform.py`
`DataPipeline` with zero transforms has exactly its source's hash, and so
a repository lookup of the empty pipeline's hash is the lookup of the
source's hash — the same ContentStore entry. -/
theorem empty_chain_identity :
    (∀ h0 : String, transformed_sha256 h0 [] = h0)
    ∧ (∀ s : TfDataSource, (TfDataSource.pipeline s []).sha256 = s.sha256)
    ∧ (∀ (st : FsDataRepository) (s : TfDataSource),
        st.lookup (TfDataSource.pipeline s []).sha256 = st.lookup s.sha256) :=
  ⟨fun _ => rfl, fun _ => rfl, fun _ _ => rfl⟩

/-- C10: a failed `register` mutates nothing: whenever `register(alias,
sha)` raises (alias taken, or sha absent from the store), both the
in-memory alias map and the persisted `registry.json` are exactly as
before the call — the code raises before either assignment. -/
theorem register_atomic_on_error :
    ∀ (st : FsDataRepository) (aliasName sha : String) (e : PyError),
      (st.register aliasName sha).2 = some e →
      (st.register aliasName sha).1.aliases = st.aliases ∧
      (st.register aliasName sha).1.registryFile = st.registryFile := by
  intro st aliasName sha e herr
  unfold FsDataRepository.register
  by_cases h1 : (st.aliases.lookup aliasName).isSome = true
  · rw [if_pos h1]
    exact ⟨rfl, rfl⟩
  · rw [if_neg h1]
    by_cases h2 : (!st.existsPath sha) = true
    · rw [if_pos h2]
      exact ⟨rfl, rfl⟩
    · exfalso
      unfold FsDataRepository.register at herr
      rw [if_neg h1, if_neg h2] at herr
      simp at herr

/-- C10 witness: registering over an already-taken alias fails and leaves
the alias map and registry file untouched. -/
theorem register_atomic_on_error_witness :
    ((FsDataRepository.mk [] [("m", "h")] [("m", "h")]).register "m" "x").2 =
      some .valueError ∧
    (((FsDataRepository.mk [] [("m", "h")] [("m", "h")]).register "m" "x").1.aliases
        = [("m", "h")] ∧
      ((FsDataRepository.mk [] [("m", "h")] [("m", "h")]).register "m" "x").1.registryFile
        = [("m", "h")]) :=
  ⟨by decide,
   register_atomic_on_error (FsDataRepository.mk [] [("m", "h")] [("m", "h")])
     "m" "x" .valueError (by decide)⟩

end Nanoconfig
